import Mathlib

set_option autoImplicit false

/-!
Shallow embedding of the data-acquisition layer of `src/pokedex_app.py`:
`fetch_pokemon_data` (lines 25-54) and `load_pokemon_for_analysis`
(lines 56-77).

Modelling conventions:
* JSON payloads are the inductive `Json`.  Numbers are `Int` (PokeAPI
  serves integers in every field this layer reads).
* The network is a `World`: a function from URL to either a transport
  failure (`Except.error ()`, i.e. `requests.get` raising a
  `ConnectionError`/`Timeout`, all subclasses of `RequestException`) or
  a completed `HttpResponse` (status code plus body; `body = none`
  models a body that is not valid JSON, so that `response.json()`
  raises `requests.exceptions.JSONDecodeError` — a `RequestException`
  subclass in every requests release since 2.27).
* Python exceptions are `PyError`; every embedded function returns
  `Except PyError _`, with `.error e` meaning the Python code raises
  `e` to its caller.  `fetch_pokemon_data`'s `except
  requests.exceptions.RequestException` clause catches exactly
  `PyError.requestException`.
* Mutable-cache behaviour of the `@st.cache_data` decorator is modelled
  by explicit state passing (`FetchState` / `LoadState`), including a
  request counter playing the role of the spec's request-count spy.
* `float` division by `10.0` is modelled over `Rat`.  For the integer
  inputs this layer divides (small decimeter/hectogram values), IEEE
  double division by `10.0` and the double literals the spec compares
  against (`0.4`, `6.0`) denote exactly the same values, so `Rat` is an
  exact model of the comparisons made here.
-/

/-- Python exceptions that the embedded code can raise. -/
inductive PyError : Type where
  | keyError (k : String) : PyError
  | typeError : PyError
  | indexError : PyError
  | requestException : PyError
deriving DecidableEq, Repr

/-- JSON values, as produced by `response.json()`. -/
inductive Json : Type where
  | null : Json
  | bool (b : Bool) : Json
  | num (n : Int) : Json
  | str (s : String) : Json
  | arr (xs : List Json) : Json
  | obj (fields : List (String × Json)) : Json

/-- Python `value[k]` on a JSON value: `KeyError` when the key is
missing from a dict, `TypeError` when the value is not a dict. -/
def Json.getField : Json → String → Except PyError Json
  | Json.obj fs, k =>
    match fs.find? (fun p => p.1 == k) with
    | some p => Except.ok p.2
    | none => Except.error (PyError.keyError k)
  | _, _ => Except.error PyError.typeError

/-- ASCII model of Python `str.lower` on one character. -/
def pyLowerChar (c : Char) : Char :=
  if 'A' ≤ c ∧ c ≤ 'Z' then Char.ofNat (c.toNat + 32) else c

/-- ASCII model of Python `str.lower` (the identifiers this program
lower-cases are ASCII names and digit strings). -/
def pyLower (s : String) : String :=
  String.mk (s.data.map pyLowerChar)

/-- ASCII model of Python `str.upper` on one character. -/
def pyUpperChar (c : Char) : Char :=
  if 'a' ≤ c ∧ c ≤ 'z' then Char.ofNat (c.toNat - 32) else c

/-- ASCII model of Python `str.capitalize`: first character upper-cased,
all remaining characters lower-cased. -/
def pyCapitalize (s : String) : String :=
  match s.data with
  | [] => ""
  | c :: cs => String.mk (pyUpperChar c :: cs.map pyLowerChar)

/-- Model of Python `str(...)` on a JSON value.  The leaf cases are
exact; the rendering of containers abbreviates Python's repr format
(no code path exercised by a claim stringifies a container). -/
def pyStr : Json → String
  | Json.str s => s
  | Json.num n => toString n
  | Json.bool b => if b then "True" else "False"
  | Json.null => "None"
  | Json.arr _ => "[...]"
  | Json.obj _ => "\x7b...\x7d"

/-- A completed HTTP response: status code and body.  `body = none`
models a body that is not parseable JSON. -/
structure HttpResponse : Type where
  status : Nat
  body : Option Json

/-- The network: URL to transport failure (`error ()`) or completed
response. -/
def World : Type := String → Except Unit HttpResponse

/-- Status codes for which `Response.raise_for_status` raises
`HTTPError` and `Response.ok` is `False`: the 4xx and 5xx ranges. -/
def statusBad (s : Nat) : Bool :=
  decide (400 ≤ s) && decide (s < 600)

/-- The `requests.get(url)` / `raise_for_status()` / `.json()` sequence
used at lines 30-32 and 35-37: transport errors, HTTP error statuses
and unparseable bodies all raise a `RequestException` (the latter via
`requests.exceptions.JSONDecodeError`, requests ≥ 2.27). -/
def tryGetJson (w : World) (url : String) : Except PyError Json :=
  match w url with
  | Except.error _ => Except.error PyError.requestException
  | Except.ok resp =>
    if statusBad resp.status then Except.error PyError.requestException
    else
      match resp.body with
      | none => Except.error PyError.requestException
      | some j => Except.ok j

/-- The normalized entity record built at lines 45-52. -/
structure EntityRecord : Type where
  id : Json
  name : String
  image : Json
  types : List Json
  stats : List (Json × Json)
  height : Rat
  weight : Rat
  description : String

/-- Line 34: `data['species']['url']`. -/
def speciesUrlOf (data : Json) : Except PyError Json :=
  match data.getField "species" with
  | Except.error e => Except.error e
  | Except.ok sp => sp.getField "url"

/-- The language tag of one flavor-text entry:
`entry['language']['name']`. -/
def entryLang (e : Json) : Except PyError Json :=
  match e.getField "language" with
  | Except.error e => Except.error e
  | Except.ok lang => lang.getField "name"

/-- Whether a JSON value is the string `k` (Python `== 'k'`: `False`,
never an exception, on non-strings). -/
def keyIs (j : Json) (k : String) : Bool :=
  match j with
  | Json.str t => t == k
  | _ => false

/-- Python `s.replace(pat, rep)` for a one-character pattern and
replacement (the only shape this program uses): substitute every
occurrence of the character. -/
def pyReplaceChar (pat rep : Char) (s : String) : String :=
  String.mk (s.data.map (fun c => if c = pat then rep else c))

/-- Lines 39-43: scan the flavor-text entries in list order for the
first whose `language.name` equals `'es'`; return its `flavor_text`
with `'\n'` and `'\f'` replaced by spaces; fall back to the literal
`"Descripción no disponible."` when the scan is exhausted.  Testing the
language tag of an entry raises (propagates) when the fields are
missing, exactly as the generator expression does. -/
def pickDescription : List Json → Except PyError String
  | [] => Except.ok "Descripción no disponible."
  | e :: rest =>
    match entryLang e with
    | Except.error err => Except.error err
    | Except.ok lj =>
      if keyIs lj "es" then
        match e.getField "flavor_text" with
        | Except.error err => Except.error err
        | Except.ok (Json.str s) =>
          Except.ok (pyReplaceChar '\x0c' ' ' (pyReplaceChar '\n' ' ' s))
        | Except.ok _ => Except.error PyError.typeError
      else pickDescription rest

/-- Exception-propagating map, modelling a Python list/dict
comprehension that may raise while evaluating an element. -/
def exMapM {α β : Type} (f : α → Except PyError β) : List α → Except PyError (List β)
  | [] => Except.ok []
  | a :: rest =>
    match f a with
    | Except.error e => Except.error e
    | Except.ok b =>
      match exMapM f rest with
      | Except.error e => Except.error e
      | Except.ok bs => Except.ok (b :: bs)

/-- Line 39 (iterable of the generator): `species_data['flavor_text_entries']`
followed by the scan of `pickDescription`. -/
def extractDescription (sd : Json) : Except PyError String :=
  match sd.getField "flavor_text_entries" with
  | Except.error e => Except.error e
  | Except.ok (Json.arr ents) => pickDescription ents
  | Except.ok _ => Except.error PyError.typeError

/-- Line 46: `data['name'].capitalize()` (`AttributeError`, modelled
`typeError`, on a non-string). -/
def extractName (data : Json) : Except PyError String :=
  match data.getField "name" with
  | Except.error e => Except.error e
  | Except.ok (Json.str s) => Except.ok (pyCapitalize s)
  | Except.ok _ => Except.error PyError.typeError

/-- Line 47: `data['sprites']['other']['official-artwork']['front_default']`. -/
def extractImage (data : Json) : Except PyError Json :=
  match data.getField "sprites" with
  | Except.error e => Except.error e
  | Except.ok sp =>
    match sp.getField "other" with
    | Except.error e => Except.error e
    | Except.ok ot =>
      match ot.getField "official-artwork" with
      | Except.error e => Except.error e
      | Except.ok oa => oa.getField "front_default"

/-- Line 48: `[t['type']['name'] for t in data['types']]`. -/
def extractTypes (data : Json) : Except PyError (List Json) :=
  match data.getField "types" with
  | Except.error e => Except.error e
  | Except.ok (Json.arr ts) =>
    exMapM (fun t =>
      match t.getField "type" with
      | Except.error e => Except.error e
      | Except.ok ty => ty.getField "name") ts
  | Except.ok _ => Except.error PyError.typeError

/-- One element of the dict comprehension of line 49:
`s['stat']['name']: s['base_stat']`. -/
def statPair (s : Json) : Except PyError (Json × Json) :=
  match s.getField "stat" with
  | Except.error e => Except.error e
  | Except.ok st =>
    match st.getField "name" with
    | Except.error e => Except.error e
    | Except.ok n =>
      match s.getField "base_stat" with
      | Except.error e => Except.error e
      | Except.ok b => Except.ok (n, b)

/-- Line 49: `{s['stat']['name']: s['base_stat'] for s in data['stats']}`,
kept as the insertion-ordered key/value sequence the dict receives. -/
def extractStats (data : Json) : Except PyError (List (Json × Json)) :=
  match data.getField "stats" with
  | Except.error e => Except.error e
  | Except.ok (Json.arr ss) => exMapM statPair ss
  | Except.ok _ => Except.error PyError.typeError

/-- Line 50: `data['height'] / 10.0` — exact rational division of the
integer by 10, written `Rat.divInt n 10`. -/
def extractHeight (data : Json) : Except PyError Rat :=
  match data.getField "height" with
  | Except.error e => Except.error e
  | Except.ok (Json.num n) => Except.ok (Rat.divInt n 10)
  | Except.ok _ => Except.error PyError.typeError

/-- Line 50: `data['weight'] / 10.0`. -/
def extractWeight (data : Json) : Except PyError Rat :=
  match data.getField "weight" with
  | Except.error e => Except.error e
  | Except.ok (Json.num n) => Except.ok (Rat.divInt n 10)
  | Except.ok _ => Except.error PyError.typeError

/-- Lines 39-52: computing the description and then building the
returned dict, evaluating its fields in source order. -/
def buildRecord (data sd : Json) : Except PyError EntityRecord :=
  match extractDescription sd with
  | Except.error e => Except.error e
  | Except.ok description =>
  match data.getField "id" with
  | Except.error e => Except.error e
  | Except.ok idv =>
  match extractName data with
  | Except.error e => Except.error e
  | Except.ok nm =>
  match extractImage data with
  | Except.error e => Except.error e
  | Except.ok image =>
  match extractTypes data with
  | Except.error e => Except.error e
  | Except.ok types =>
  match extractStats data with
  | Except.error e => Except.error e
  | Except.ok stats =>
  match extractHeight data with
  | Except.error e => Except.error e
  | Except.ok h =>
  match extractWeight data with
  | Except.error e => Except.error e
  | Except.ok wt =>
  Except.ok { id := idv, name := nm, image := image, types := types,
              stats := stats, height := h, weight := wt,
              description := description }

/-- Body of `fetch_pokemon_data` from its first `requests.get` on,
as a function of the already-built URL, paired with the number of
`requests.get` invocations made (the spec's request-count spy).
A non-string `species.url` makes `requests.get` raise `MissingSchema`,
a `RequestException` subclass. -/
def fetchViaUrl (w : World) (url : String) : Except PyError EntityRecord × Nat :=
  match tryGetJson w url with
  | Except.error e => (Except.error e, 1)
  | Except.ok data =>
    match speciesUrlOf data with
    | Except.error e => (Except.error e, 1)
    | Except.ok (Json.str su) =>
      (match tryGetJson w su with
       | Except.error e => (Except.error e, 2)
       | Except.ok sd =>
         match buildRecord data sd with
         | Except.error e => (Except.error e, 2)
         | Except.ok r => (Except.ok r, 2))
    | Except.ok _ => (Except.error PyError.requestException, 2)

/-- Line 29: `f"https://pokeapi.co/api/v2/pokemon/{str(identifier).lower()}"`. -/
def primaryUrl (identifier : String) : String :=
  "https://pokeapi.co/api/v2/pokemon/" ++ pyLower identifier

/-- The `try` block of `fetch_pokemon_data` (lines 28-52), with its
request count. -/
def fetchBodyCounted (w : World) (identifier : String) : Except PyError EntityRecord × Nat :=
  fetchViaUrl w (primaryUrl identifier)

/-- `fetch_pokemon_data` (lines 25-54): the `try` body with
`except requests.exceptions.RequestException: return None`.
`Except.ok none` is Python's `None` return; `Except.error e` is an
uncaught exception `e` propagating to the caller. -/
def fetch_pokemon_data (w : World) (identifier : String) : Except PyError (Option EntityRecord) :=
  match (fetchBodyCounted w identifier).1 with
  | Except.ok r => Except.ok (some r)
  | Except.error PyError.requestException => Except.ok none
  | Except.error e => Except.error e

/-- Line 69 onward: look a stat up in the record's stats dict with
default `0` — `data['stats'].get(k, 0)`.  A Python dict keeps, for a
duplicated key, the value inserted last, hence the reversed scan of the
insertion-ordered sequence. -/
def dictGetD (m : List (Json × Json)) (k : String) : Json :=
  match m.reverse.find? (fun p => keyIs p.1 k) with
  | some p => p.2
  | none => Json.num 0

/-- Whether the stats dict contains the (string) key `k`. -/
def dictHasKey (m : List (Json × Json)) (k : String) : Bool :=
  m.any (fun p => keyIs p.1 k)

/-- One row of the analysis table built at lines 68-75.  Field names
transliterate the Spanish column labels:
`ID, Nombre, Tipo Primario, Tipo Secundario, HP, Ataque, Defensa,
At. Especial, Def. Especial, Velocidad, Altura (m), Peso (kg)`. -/
structure Row : Type where
  id : Json
  nombre : String
  tipoPrimario : Json
  tipoSecundario : Option Json
  hp : Json
  ataque : Json
  defensa : Json
  atEspecial : Json
  defEspecial : Json
  velocidad : Json
  altura : Rat
  peso : Rat

/-- Lines 68-75: flatten one fetched record into a row.
`data['types'][0]` raises `IndexError` on an empty list;
`data['types'][1] if len(data['types']) > 1 else None` is
`rest.head?`. -/
def flattenRecord (d : EntityRecord) : Except PyError Row :=
  match d.types with
  | [] => Except.error PyError.indexError
  | t0 :: rest =>
    Except.ok { id := d.id, nombre := d.name, tipoPrimario := t0,
                tipoSecundario := rest.head?,
                hp := dictGetD d.stats "hp",
                ataque := dictGetD d.stats "attack",
                defensa := dictGetD d.stats "defense",
                atEspecial := dictGetD d.stats "special-attack",
                defEspecial := dictGetD d.stats "special-defense",
                velocidad := dictGetD d.stats "speed",
                altura := d.height, peso := d.weight }

/-- Lines 65-76: the `for pokemon in results:` loop.  Each entry is
fetched by name (`fetch_pokemon_data(pokemon['name'])`); absent entries
(`None`) are skipped; successes are flattened and appended.  The second
component counts the calls made to `fetch_pokemon_data` (the per-entity
fetches).  Like the source, any exception raised while processing an
entry aborts the loop and propagates. -/
def processResults (w : World) : List Json → Except PyError (List Row) × Nat
  | [] => (Except.ok [], 0)
  | p :: rest =>
    match p.getField "name" with
    | Except.error e => (Except.error e, 0)
    | Except.ok nj =>
      match fetch_pokemon_data w (pyStr nj) with
      | Except.error e => (Except.error e, 1)
      | Except.ok none =>
        ((processResults w rest).1, (processResults w rest).2 + 1)
      | Except.ok (some d) =>
        match flattenRecord d with
        | Except.error e => (Except.error e, 1)
        | Except.ok row =>
          match (processResults w rest).1 with
          | Except.ok rows => (Except.ok (row :: rows), (processResults w rest).2 + 1)
          | Except.error e => (Except.error e, (processResults w rest).2 + 1)

/-- Line 60: `f"https://pokeapi.co/api/v2/pokemon?limit={limit}"`. -/
def listUrl (limit : Nat) : String :=
  "https://pokeapi.co/api/v2/pokemon?limit=" ++ toString limit

/-- `load_pokemon_for_analysis` (lines 56-77).  The listing request has
no `try`: a transport failure (or a `JSONDecodeError` from
`response.json()`) propagates.  When `response.ok` is `False` the `if`
body is skipped and the empty table is returned.  The result pairs the
returned table (rows of the `DataFrame`) with the number of per-entity
`fetch_pokemon_data` calls made. -/
def load_pokemon_for_analysis (w : World) (limit : Nat) : Except PyError (List Row) × Nat :=
  match w (listUrl limit) with
  | Except.error _ => (Except.error PyError.requestException, 0)
  | Except.ok resp =>
    if statusBad resp.status then (Except.ok [], 0)
    else
      match resp.body with
      | none => (Except.error PyError.requestException, 0)
      | some j =>
        match j.getField "results" with
        | Except.error e => (Except.error e, 0)
        | Except.ok (Json.arr rs) => processResults w rs
        | Except.ok _ => (Except.error PyError.typeError, 0)

/-- Lookup in an insertion-ordered cache. -/
def cacheLookup {κ α : Type} [BEq κ] : List (κ × α) → κ → Option α
  | [], _ => none
  | p :: c, k => if p.1 == k then some p.2 else cacheLookup c k

/-- State of the `@st.cache_data` cache wrapping `fetch_pokemon_data`:
entries keyed by the raw argument value passed to the function (the
decorator hashes the parameters before the body — and hence the
lower-casing at line 29 — runs), plus a counter of `requests.get`
invocations (the request-count spy). -/
structure FetchState : Type where
  cache : List (String × Option EntityRecord)
  requests : Nat

/-- The decorated `fetch_pokemon_data`: on a key hit the cached value is
returned and no code runs; on a miss the body runs, its request count
is added, and the returned value (a record or `None`) is cached.  If
the body raises, `st.cache_data` stores nothing. -/
def fetchCached (w : World) (s : FetchState) (identifier : String) :
    Except PyError (Option EntityRecord) × FetchState :=
  match cacheLookup s.cache identifier with
  | some v => (Except.ok v, s)
  | none =>
    match fetch_pokemon_data w identifier, (fetchBodyCounted w identifier).2 with
    | Except.ok v, n =>
      (Except.ok v, { cache := s.cache ++ [(identifier, v)], requests := s.requests + n })
    | Except.error e, n =>
      (Except.error e, { cache := s.cache, requests := s.requests + n })

/-- State of the `@st.cache_data` cache wrapping
`load_pokemon_for_analysis`: tables keyed by the `limit` argument, plus
a counter of `requests.get` invocations made through this function (the
listing request and, on the fetch layer's misses, the per-entity
requests; the counter here counts the listing request plus the
per-entity fetch calls of the body). -/
structure LoadState : Type where
  cache : List (Nat × List Row)
  requests : Nat

/-- The decorated `load_pokemon_for_analysis`: hit returns the cached
table with no code run; miss runs the body and caches the returned
table.  If the body raises, nothing is cached. -/
def loadCached (w : World) (s : LoadState) (limit : Nat) :
    Except PyError (List Row) × LoadState :=
  match cacheLookup s.cache limit with
  | some rows => (Except.ok rows, s)
  | none =>
    match load_pokemon_for_analysis w limit with
    | (Except.ok rows, calls) =>
      (Except.ok rows, { cache := s.cache ++ [(limit, rows)], requests := s.requests + 1 + calls })
    | (Except.error e, calls) =>
      (Except.error e, { cache := s.cache, requests := s.requests + 1 + calls })

/-- Whether a listing entry's fetch comes back absent (`None`):
`fetch_pokemon_data(pokemon['name'])` returns `None`.  Entries whose
very name access would raise are not "failed fetches". -/
def entryAbsent (w : World) (p : Json) : Bool :=
  match p.getField "name" with
  | Except.ok nj =>
    match fetch_pokemon_data w (pyStr nj) with
    | Except.ok none => true
    | _ => false
  | Except.error _ => false

/-- Number of listing entries whose individual fetch failed. -/
def absentCount (w : World) (rs : List Json) : Nat :=
  (rs.filter (entryAbsent w)).length

/-- The six canonical stat names of the spec's data model. -/
def canonicalStatNames : List String :=
  ["hp", "attack", "defense", "special-attack", "special-defense", "speed"]

/-- The row one listing entry contributes on a loop run that raises no
exception: the flattened record of its successful fetch, or nothing
when the fetch came back `None`.  The loop's output is the
order-preserving `filterMap` of this function over the listing. -/
def entryRow (w : World) (p : Json) : Option Row :=
  match p.getField "name" with
  | Except.ok nj =>
    match fetch_pokemon_data w (pyStr nj) with
    | Except.ok (some d) =>
      match flattenRecord d with
      | Except.ok row => some row
      | Except.error _ => none
    | _ => none
  | Except.error _ => none

/-! Concrete payloads and worlds used by counterexamples and witnesses. -/

/-- One element of a `types` array: `{"type": {"name": n}}`. -/
def typeE (n : String) : Json :=
  Json.obj [("type", Json.obj [("name", Json.str n)])]

/-- One element of a `stats` array:
`{"stat": {"name": n}, "base_stat": v}`. -/
def statE (n : String) (v : Int) : Json :=
  Json.obj [("stat", Json.obj [("name", Json.str n)]), ("base_stat", Json.num v)]

/-- One flavor-text entry:
`{"language": {"name": lang}, "flavor_text": text}`. -/
def flavorE (lang text : String) : Json :=
  Json.obj [("language", Json.obj [("name", Json.str lang)]), ("flavor_text", Json.str text)]

/-- The six base stats of Pikachu as served by the remote API. -/
def pikaStats : List Json :=
  [statE "hp" 35, statE "attack" 55, statE "defense" 40,
   statE "special-attack" 50, statE "special-defense" 50, statE "speed" 90]

def pikaSpeciesUrl : String := "https://pokeapi.co/api/v2/pokemon-species/25/"

/-- Primary record for `pikachu` (the fields this layer reads, with the
raw values named by the spec's concrete scenario: height 4, weight 60). -/
def pikaData : Json :=
  Json.obj [("id", Json.num 25), ("name", Json.str "pikachu"),
            ("species", Json.obj [("url", Json.str pikaSpeciesUrl)]),
            ("sprites", Json.obj [("other", Json.obj
              [("official-artwork", Json.obj [("front_default", Json.str "https://img/25.png")])])]),
            ("types", Json.arr [typeE "electric"]),
            ("stats", Json.arr pikaStats),
            ("height", Json.num 4), ("weight", Json.num 60)]

/-- Species record for `pikachu` with an English and a Spanish entry. -/
def pikaSpecies : Json :=
  Json.obj [("flavor_text_entries", Json.arr
    [flavorE "en" "When it is angered,\nit discharges energy.",
     flavorE "es" "Cuando se enfada,\ndescarga energía."])]

/-- A world serving the two pikachu documents at their URLs. -/
def wPika : World := fun u =>
  if u = primaryUrl "pikachu" then Except.ok ⟨200, some pikaData⟩
  else if u = pikaSpeciesUrl then Except.ok ⟨200, some pikaSpecies⟩
  else Except.error ()

/-- The record `fetch_pokemon_data` builds from the pikachu documents. -/
def pikaRecord : EntityRecord :=
  { id := Json.num 25, name := "Pikachu",
    image := Json.str "https://img/25.png",
    types := [Json.str "electric"],
    stats := [(Json.str "hp", Json.num 35), (Json.str "attack", Json.num 55),
              (Json.str "defense", Json.num 40), (Json.str "special-attack", Json.num 50),
              (Json.str "special-defense", Json.num 50), (Json.str "speed", Json.num 90)],
    height := Rat.divInt 4 10, weight := Rat.divInt 60 10,
    description := "Cuando se enfada, descarga energía." }

/-- A world where every request fails at the transport level. -/
def wDead : World := fun _ => Except.error ()

/-- A world where every request completes with status 500. -/
def w500 : World := fun _ => Except.ok ⟨500, none⟩

/-- A minimal valid primary record with the given `types` and `stats`
arrays. -/
def miniData (types stats : List Json) : Json :=
  Json.obj [("id", Json.num 1), ("name", Json.str "bulbasaur"),
            ("species", Json.obj [("url", Json.str "species-url")]),
            ("sprites", Json.obj [("other", Json.obj
              [("official-artwork", Json.obj [("front_default", Json.null)])])]),
            ("types", Json.arr types), ("stats", Json.arr stats),
            ("height", Json.num 7), ("weight", Json.num 69)]

/-- A world whose primary record for `x` has empty `types` and `stats`
arrays and whose species record has no flavor-text entries: every field
access succeeds, so the fetch completes. -/
def wEmptyTypes : World := fun u =>
  if u = primaryUrl "x" then Except.ok ⟨200, some (miniData [] [])⟩
  else if u = "species-url" then
    Except.ok ⟨200, some (Json.obj [("flavor_text_entries", Json.arr [])])⟩
  else Except.error ()

/-- The record fetched from `wEmptyTypes`: empty `types`, empty `stats`. -/
def etRecord : EntityRecord :=
  { id := Json.num 1, name := "Bulbasaur", image := Json.null, types := [], stats := [],
    height := Rat.divInt 7 10, weight := Rat.divInt 69 10, description := "Descripción no disponible." }

/-- A world whose species record has only an English flavor-text entry,
so no entry matches the target locale `'es'`. -/
def wNoEs : World := fun u =>
  if u = primaryUrl "y" then Except.ok ⟨200, some (miniData [typeE "grass"] [statE "hp" 45])⟩
  else if u = "species-url" then
    Except.ok ⟨200, some (Json.obj [("flavor_text_entries", Json.arr [flavorE "en" "A strange seed."])])⟩
  else Except.error ()

/-- The record fetched from `wNoEs`: description is the fallback. -/
def noEsRecord : EntityRecord :=
  { id := Json.num 1, name := "Bulbasaur", image := Json.null,
    types := [Json.str "grass"], stats := [(Json.str "hp", Json.num 45)],
    height := Rat.divInt 7 10, weight := Rat.divInt 69 10, description := "Descripción no disponible." }

/-- A world whose primary record for `z` is the empty JSON object:
the request succeeds, the JSON parses, but `data['species']` raises
`KeyError`. -/
def wNoSpecies : World := fun u =>
  if u = primaryUrl "z" then Except.ok ⟨200, some (Json.obj [])⟩ else Except.error ()

/-- A world whose listing for `limit = 2` names two entries, the first
of which fails its individual fetch (transport error) while the second
fetch succeeds. -/
def wC5 : World := fun u =>
  if u = listUrl 2 then
    Except.ok ⟨200, some (Json.obj [("results", Json.arr
      [Json.obj [("name", Json.str "afail")], Json.obj [("name", Json.str "bok")]])])⟩
  else if u = primaryUrl "bok" then
    Except.ok ⟨200, some (miniData [typeE "grass"] [statE "hp" 45])⟩
  else if u = "species-url" then
    Except.ok ⟨200, some (Json.obj [("flavor_text_entries", Json.arr [])])⟩
  else Except.error ()

/-- The single row `load_pokemon_for_analysis` builds from `wC5`. -/
def bokRow : Row :=
  { id := Json.num 1, nombre := "Bulbasaur", tipoPrimario := Json.str "grass",
    tipoSecundario := none, hp := Json.num 45, ataque := Json.num 0, defensa := Json.num 0,
    atEspecial := Json.num 0, defEspecial := Json.num 0, velocidad := Json.num 0,
    altura := Rat.divInt 7 10, peso := Rat.divInt 69 10 }

example : fetch_pokemon_data wPika "pikachu" = Except.ok (some pikaRecord) := rfl
example : fetch_pokemon_data wDead "a" = Except.ok none := rfl
example : fetch_pokemon_data wEmptyTypes "x" = Except.ok (some etRecord) := rfl
example : fetch_pokemon_data wNoEs "y" = Except.ok (some noEsRecord) := rfl
example : fetch_pokemon_data wNoSpecies "z" = Except.error (PyError.keyError "species") := rfl
example : load_pokemon_for_analysis wC5 2 = (Except.ok [bokRow], 2) := rfl
example : load_pokemon_for_analysis w500 7 = (Except.ok [], 0) := rfl
example : load_pokemon_for_analysis wDead 3 = (Except.error PyError.requestException, 0) := rfl
example : (fetchCached wDead ⟨[], 0⟩ "A").2.requests = 1 := rfl
example : (fetchCached wDead (fetchCached wDead ⟨[], 0⟩ "A").2 "a").2.requests = 2 := rfl

/-! Helper lemmas. -/

/-- Appending a fresh entry to a cache makes its key hit. -/
theorem cacheLookup_append {κ α : Type} [BEq κ] [LawfulBEq κ]
    (c : List (κ × α)) (k : κ) (v : α) (h : cacheLookup c k = none) :
    cacheLookup (c ++ [(k, v)]) k = some v := by
  induction c with
  | nil => simp [cacheLookup]
  | cons p c ih =>
    rw [List.cons_append]
    rw [cacheLookup] at h ⊢
    by_cases hk : p.1 == k
    · rw [if_pos hk] at h; exact absurd h (by simp)
    · rw [if_neg hk] at h ⊢; exact ih h

/-- An exception-propagating map that succeeds preserves length. -/
theorem exMapM_length {α β : Type} (f : α → Except PyError β) :
    ∀ (l : List α) (out : List β), exMapM f l = Except.ok out → out.length = l.length := by
  intro l
  induction l with
  | nil => intro out h; rw [exMapM] at h; cases h; rfl
  | cons a rest ih =>
    intro out h
    rw [exMapM] at h
    cases hf : f a with
    | error e => rw [hf] at h; exact absurd h (by simp)
    | ok b =>
      rw [hf] at h
      cases hrest : exMapM f rest with
      | error e => rw [hrest] at h; exact absurd h (by simp)
      | ok bs =>
        rw [hrest] at h
        cases h
        simp [ih bs hrest]

/-- Whether a `stats` array element carries the (string) stat name `k`:
the key its dict-comprehension element would insert is `Json.str k`. -/
def statEntryNamed (s : Json) (k : String) : Bool :=
  match statPair s with
  | Except.ok p => keyIs p.1 k
  | Except.error _ => false

/-- If the dict comprehension over `ss` succeeds and some element of
`ss` carries stat name `k`, the resulting key/value sequence contains
key `k`. -/
theorem exMapM_stats_mem :
    ∀ (ss : List Json) (ps : List (Json × Json)) (k : String),
      exMapM statPair ss = Except.ok ps →
      ss.any (fun s => statEntryNamed s k) = true →
      dictHasKey ps k = true := by
  intro ss
  induction ss with
  | nil => intro ps k h hex; simp at hex
  | cons s rest ih =>
    intro ps k h hex
    rw [exMapM] at h
    cases hf : statPair s with
    | error e => rw [hf] at h; exact absurd h (by simp)
    | ok p =>
      rw [hf] at h
      cases hrest : exMapM statPair rest with
      | error e => rw [hrest] at h; exact absurd h (by simp)
      | ok ps' =>
        rw [hrest] at h
        cases h
        rw [List.any_cons] at hex
        rw [dictHasKey, List.any_cons]
        cases hor : statEntryNamed s k with
        | true =>
          have : keyIs p.1 k = true := by
            rw [statEntryNamed, hf] at hor; exact hor
          rw [this]; rfl
        | false =>
          rw [hor] at hex
          simp only [Bool.false_or] at hex
          have := ih ps' k hrest hex
          rw [dictHasKey] at this
          rw [this, Bool.or_true]

/-- Inversion for a successful `buildRecord`: each stored field is the
successful result of its extractor. -/
theorem buildRecord_fields (data sd : Json) (r : EntityRecord)
    (h : buildRecord data sd = Except.ok r) :
    extractDescription sd = Except.ok r.description ∧
    extractTypes data = Except.ok r.types ∧
    extractStats data = Except.ok r.stats := by
  unfold buildRecord at h
  repeat' split at h
  all_goals try exact Except.noConfusion h
  injection h with h
  subst h
  refine ⟨?_, ?_, ?_⟩ <;> assumption

/-- A loop run that returns a table has one row per non-absent entry
and made one per-entity fetch call per entry. -/
theorem processResults_length (w : World) :
    ∀ (rs : List Json) (rows : List Row) (c : Nat),
      processResults w rs = (Except.ok rows, c) →
      rows.length + absentCount w rs = rs.length ∧ c = rs.length := by
  intro rs
  induction rs with
  | nil =>
    intro rows c h
    rw [processResults] at h
    injection h with h1 h2
    injection h1 with h1
    subst h1
    subst h2
    exact ⟨rfl, rfl⟩
  | cons p rest ih =>
    intro rows c h
    rw [processResults] at h
    cases hn : Json.getField p "name" with
    | error e =>
      simp only [hn] at h
      injection h with h1 h2
      exact Except.noConfusion h1
    | ok nj =>
      cases hf : fetch_pokemon_data w (pyStr nj) with
      | error e =>
        simp only [hn, hf] at h
        injection h with h1 h2
        exact Except.noConfusion h1
      | ok od =>
        cases od with
        | none =>
          simp only [hn, hf] at h
          injection h with h1 h2
          have hp : processResults w rest = (Except.ok rows, (processResults w rest).2) := by
            rw [← h1]
          obtain ⟨ha, hc⟩ := ih rows _ hp
          have hab : entryAbsent w p = true := by simp [entryAbsent, hn, hf]
          have hacons : absentCount w (p :: rest) = absentCount w rest + 1 := by
            simp [absentCount, List.filter_cons, hab]
          simp only [List.length_cons]
          omega
        | some d =>
          cases hfl : flattenRecord d with
          | error e =>
            simp only [hn, hf, hfl] at h
            injection h with h1 h2
            exact Except.noConfusion h1
          | ok row =>
            cases hpr : (processResults w rest).1 with
            | error e =>
              simp only [hn, hf, hfl, hpr] at h
              injection h with h1 h2
              exact Except.noConfusion h1
            | ok rows2 =>
              simp only [hn, hf, hfl, hpr] at h
              injection h with h1 h2
              injection h1 with h1
              subst h1
              have hp : processResults w rest = (Except.ok rows2, (processResults w rest).2) := by
                rw [← hpr]
              obtain ⟨ha, hc⟩ := ih rows2 _ hp
              have hab : entryAbsent w p = false := by simp [entryAbsent, hn, hf]
              have hacons : absentCount w (p :: rest) = absentCount w rest := by
                simp [absentCount, List.filter_cons, hab]
              simp only [List.length_cons]
              omega

/-- A loop run that returns a table returns exactly the
order-preserving `filterMap` of `entryRow` over the listing entries:
rows appear in enumeration order, skipped entries leave no row. -/
theorem processResults_rows (w : World) :
    ∀ (rs : List Json) (rows : List Row) (c : Nat),
      processResults w rs = (Except.ok rows, c) →
      rows = rs.filterMap (entryRow w) := by
  intro rs
  induction rs with
  | nil =>
    intro rows c h
    rw [processResults] at h
    injection h with h1 h2
    injection h1 with h1
    subst h1
    rfl
  | cons p rest ih =>
    intro rows c h
    rw [processResults] at h
    cases hn : Json.getField p "name" with
    | error e =>
      simp only [hn] at h
      injection h with h1 h2
      exact Except.noConfusion h1
    | ok nj =>
      cases hf : fetch_pokemon_data w (pyStr nj) with
      | error e =>
        simp only [hn, hf] at h
        injection h with h1 h2
        exact Except.noConfusion h1
      | ok od =>
        cases od with
        | none =>
          simp only [hn, hf] at h
          injection h with h1 h2
          have hp : processResults w rest = (Except.ok rows, (processResults w rest).2) := by
            rw [← h1]
          have hrest := ih rows _ hp
          have he : entryRow w p = none := by simp [entryRow, hn, hf]
          rw [List.filterMap_cons, he]
          exact hrest
        | some d =>
          cases hfl : flattenRecord d with
          | error e =>
            simp only [hn, hf, hfl] at h
            injection h with h1 h2
            exact Except.noConfusion h1
          | ok row =>
            cases hpr : (processResults w rest).1 with
            | error e =>
              simp only [hn, hf, hfl, hpr] at h
              injection h with h1 h2
              exact Except.noConfusion h1
            | ok rows2 =>
              simp only [hn, hf, hfl, hpr] at h
              injection h with h1 h2
              injection h1 with h1
              subst h1
              have hp : processResults w rest = (Except.ok rows2, (processResults w rest).2) := by
                rw [← hpr]
              have hrest := ih rows2 _ hp
              have he : entryRow w p = some row := by simp [entryRow, hn, hf, hfl]
              rw [List.filterMap_cons, he, hrest]

/-! Claim theorems. -/

/-- C8: with raw API height 4 and weight 60, `fetch_pokemon_data` of
`"pikachu"` returns the record with `id = 25`, `name = "Pikachu"`,
`types = ["electric"]`, `heightMeters = 0.4` and
`weightKilograms = 6.0` — heights and weights are the raw decimeter and
hectogram integers divided by 10. -/
theorem c8_concrete_pikachu :
    fetch_pokemon_data wPika "pikachu" = Except.ok (some pikaRecord) ∧
    pikaRecord.id = Json.num 25 ∧ pikaRecord.name = "Pikachu" ∧
    pikaRecord.types = [Json.str "electric"] ∧
    pikaRecord.height = (0.4 : Rat) ∧ pikaRecord.weight = (6.0 : Rat) :=
  ⟨rfl, rfl, rfl, rfl, by norm_num [pikaRecord, Rat.divInt_eq_div],
   by norm_num [pikaRecord, Rat.divInt_eq_div]⟩

/-- C6: when the listing request completes with an HTTP error status
(for instance 500), `load_pokemon_for_analysis` returns the empty table
without raising and without issuing any per-entity fetch. -/
theorem c6_listing_error_status (w : World) (limit : Nat) (resp : HttpResponse)
    (hw : w (listUrl limit) = Except.ok resp)
    (h4 : 400 ≤ resp.status) (h6 : resp.status < 600) :
    load_pokemon_for_analysis w limit = (Except.ok [], 0) := by
  have hb : statusBad resp.status = true := by
    simp [statusBad, h4, h6]
  rw [load_pokemon_for_analysis, hw]
  simp [hb]

/-- Witness for C6: a world answering status 500 everywhere makes
`load_pokemon_for_analysis` return the empty table. -/
theorem c6_listing_error_status_witness :
    load_pokemon_for_analysis w500 7 = (Except.ok [], 0) :=
  c6_listing_error_status w500 7 ⟨500, none⟩ rfl (by decide) (by decide)

/-- C9: the listing request of `load_pokemon_for_analysis` is issued
outside any exception handler, so a transport-level failure propagates
as a `RequestException` to the caller; only a completed response with
an error status yields the empty table. -/
theorem c9_listing_transport_raises :
    (∀ (w : World) (limit : Nat), w (listUrl limit) = Except.error () →
       load_pokemon_for_analysis w limit = (Except.error PyError.requestException, 0)) ∧
    (∀ (w : World) (limit : Nat) (resp : HttpResponse),
       w (listUrl limit) = Except.ok resp → 400 ≤ resp.status → resp.status < 600 →
       load_pokemon_for_analysis w limit = (Except.ok [], 0)) := by
  constructor
  · intro w limit hw
    rw [load_pokemon_for_analysis, hw]
  · intro w limit resp hw h4 h6
    have hb : statusBad resp.status = true := by
      simp [statusBad, h4, h6]
    rw [load_pokemon_for_analysis, hw]
    simp [hb]

/-- Witness for C9: with every request failing at the transport level,
`load_pokemon_for_analysis` raises `RequestException`. -/
theorem c9_listing_transport_raises_witness :
    load_pokemon_for_analysis wDead 3 = (Except.error PyError.requestException, 0) :=
  c9_listing_transport_raises.1 wDead 3 rfl

/-- Counterexample for C1: a primary response that completes with
status 200 and parses as the empty JSON object makes
`fetch_pokemon_data` raise `KeyError('species')` — the claim that a
missing expected JSON field also yields the absence signal `None` is
false: only `RequestException` subclasses are caught at line 53. -/
theorem c1_counterexample :
    fetch_pokemon_data wNoSpecies "z" = Except.error (PyError.keyError "species") ∧
    (Except.error (PyError.keyError "species") : Except PyError (Option EntityRecord)) ≠
      Except.ok none :=
  ⟨rfl, fun h => Except.noConfusion h⟩

/-- C1 (amended): `fetch_pokemon_data` returns the absence signal
`None` exactly when its body raises a `RequestException` — which covers
a transport error, a 4xx/5xx status, or an unparseable JSON body, at
either request of the pair — and in particular each of those primary
failures yields `None`; but an exception that is not a
`RequestException` (such as the `KeyError` of a missing expected JSON
field) propagates to the caller. -/
theorem c1_absence_policy :
    (∀ (w : World) (identifier : String),
       fetch_pokemon_data w identifier = Except.ok none ↔
         (fetchBodyCounted w identifier).1 = Except.error PyError.requestException) ∧
    (∀ (w : World) (identifier : String),
       w (primaryUrl identifier) = Except.error () →
       fetch_pokemon_data w identifier = Except.ok none) ∧
    (∀ (w : World) (identifier : String) (resp : HttpResponse),
       w (primaryUrl identifier) = Except.ok resp → statusBad resp.status = true →
       fetch_pokemon_data w identifier = Except.ok none) ∧
    (∀ (w : World) (identifier : String) (resp : HttpResponse),
       w (primaryUrl identifier) = Except.ok resp → statusBad resp.status = false →
       resp.body = none →
       fetch_pokemon_data w identifier = Except.ok none) ∧
    (∀ (w : World) (identifier : String) (data : Json) (su : String),
       tryGetJson w (primaryUrl identifier) = Except.ok data →
       speciesUrlOf data = Except.ok (Json.str su) →
       tryGetJson w su = Except.error PyError.requestException →
       fetch_pokemon_data w identifier = Except.ok none) := by
  refine ⟨?_, ?_, ?_, ?_, ?_⟩
  · intro w identifier
    cases hb : (fetchBodyCounted w identifier).1 with
    | ok r => simp [fetch_pokemon_data, hb]
    | error e => cases e <;> simp [fetch_pokemon_data, hb]
  · intro w identifier hw
    simp [fetch_pokemon_data, fetchBodyCounted, fetchViaUrl, tryGetJson, hw]
  · intro w identifier resp hw hs
    simp [fetch_pokemon_data, fetchBodyCounted, fetchViaUrl, tryGetJson, hw, hs]
  · intro w identifier resp hw hs hbody
    simp [fetch_pokemon_data, fetchBodyCounted, fetchViaUrl, tryGetJson, hw, hs, hbody]
  · intro w identifier data su hp hsp hsu
    simp [fetch_pokemon_data, fetchBodyCounted, fetchViaUrl, hp, hsp, hsu]

/-- Witness for C1 (amended): a transport error on the primary request
yields `None`. -/
theorem c1_absence_policy_witness :
    fetch_pokemon_data wDead "a" = Except.ok none :=
  c1_absence_policy.2.1 wDead "a" rfl

/-- Counterexample for C3: the memoization cache key is the raw
identifier argument, not the lower-cased string.  After
`fetch_pokemon_data("A")` the cache holds an entry for `"A"` only, a
lookup of `"a"` misses, and the call with `"a"` runs the body again
(the request counter advances from 1 to 2), even though both calls
normalize to the same request path. -/
theorem c3_counterexample :
    (fetchCached wDead ⟨[], 0⟩ "A").2.cache = [("A", (none : Option EntityRecord))] ∧
    cacheLookup (fetchCached wDead ⟨[], 0⟩ "A").2.cache "a" = none ∧
    (fetchCached wDead ⟨[], 0⟩ "A").2.requests = 1 ∧
    (fetchCached wDead (fetchCached wDead ⟨[], 0⟩ "A").2 "a").2.requests = 2 :=
  ⟨rfl, rfl, rfl, rfl⟩

/-- C3 (amended): the identifier is lower-cased before use as the
request path segment, so the fetch body behaves identically on any two
identifiers with the same lower-casing — while the memoization cache is
keyed by the raw identifier argument: a key that is present hits
without running the body, but differently-cased spellings of one name
occupy distinct cache entries. -/
theorem c3_normalization :
    (∀ (w : World) (idf idf2 : String), pyLower idf = pyLower idf2 →
       fetchBodyCounted w idf = fetchBodyCounted w idf2) ∧
    (∀ (w : World) (s : FetchState) (idf : String) (v : Option EntityRecord),
       cacheLookup s.cache idf = some v → fetchCached w s idf = (Except.ok v, s)) := by
  constructor
  · intro w idf idf2 h
    rw [fetchBodyCounted, fetchBodyCounted, primaryUrl, primaryUrl, h]
  · intro w s idf v h
    rw [fetchCached, h]

/-- Witness for C3 (amended): `"A"` and `"a"` produce the same body
behaviour, and a raw-key cache hit returns the cached value with the
state unchanged. -/
theorem c3_normalization_witness :
    fetchBodyCounted wDead "A" = fetchBodyCounted wDead "a" ∧
    fetchCached wDead ⟨[("a", none)], 5⟩ "a" = (Except.ok none, ⟨[("a", none)], 5⟩) :=
  ⟨c3_normalization.1 wDead "A" "a" rfl,
   c3_normalization.2 wDead ⟨[("a", none)], 5⟩ "a" none rfl⟩

/-- C7: a second call with the same key is a pure cache hit.  If a
`fetchCached` call returns normally, calling again with the same
identifier returns the same value and leaves the state — including the
request counter — unchanged: no network request is re-issued.  The same
holds for `loadCached` keyed by its `limit` argument: no re-enumeration
and no re-fetch. -/
theorem c7_cache_idempotence :
    (∀ (w : World) (s : FetchState) (idf : String) (v : Option EntityRecord) (s1 : FetchState),
       fetchCached w s idf = (Except.ok v, s1) → fetchCached w s1 idf = (Except.ok v, s1)) ∧
    (∀ (w : World) (t : LoadState) (limit : Nat) (rows : List Row) (t1 : LoadState),
       loadCached w t limit = (Except.ok rows, t1) → loadCached w t1 limit = (Except.ok rows, t1)) := by
  constructor
  · intro w s idf v s1 h
    rw [fetchCached] at h
    cases hc : cacheLookup s.cache idf with
    | some v0 =>
      rw [hc] at h
      injection h with h1 h2
      injection h1 with h1
      subst h1
      subst h2
      rw [fetchCached, hc]
    | none =>
      rw [hc] at h
      cases hr : fetch_pokemon_data w idf with
      | error e =>
        rw [hr] at h
        injection h with h1 h2
        exact Except.noConfusion h1
      | ok v0 =>
        rw [hr] at h
        injection h with h1 h2
        injection h1 with h1
        subst h1
        subst h2
        simp only [fetchCached, cacheLookup_append s.cache idf v0 hc]
  · intro w t limit rows t1 h
    rw [loadCached] at h
    cases hc : cacheLookup t.cache limit with
    | some r0 =>
      rw [hc] at h
      injection h with h1 h2
      injection h1 with h1
      subst h1
      subst h2
      rw [loadCached, hc]
    | none =>
      rw [hc] at h
      rcases hl : load_pokemon_for_analysis w limit with ⟨res, calls⟩
      rw [hl] at h
      cases res with
      | error e =>
        injection h with h1 h2
        exact Except.noConfusion h1
      | ok rows0 =>
        injection h with h1 h2
        injection h1 with h1
        subst h1
        subst h2
        simp only [loadCached, cacheLookup_append t.cache limit rows0 hc, hl]

/-- Witness for C7: after a first (miss) call, the second call with the
same key returns the same value and leaves the state unchanged. -/
theorem c7_cache_idempotence_witness :
    fetchCached wDead (fetchCached wDead ⟨[], 0⟩ "a").2 "a" =
      (Except.ok none, (fetchCached wDead ⟨[], 0⟩ "a").2) ∧
    loadCached w500 (loadCached w500 ⟨[], 0⟩ 7).2 7 =
      (Except.ok [], (loadCached w500 ⟨[], 0⟩ 7).2) :=
  ⟨c7_cache_idempotence.1 wDead ⟨[], 0⟩ "a" none _ rfl,
   c7_cache_idempotence.2 w500 ⟨[], 0⟩ 7 [] _ rfl⟩

/-- C10: flattening indexes `types[0]` without a guard.  It raises
`IndexError` exactly on an empty `types` list and succeeds otherwise;
inside the loader's loop, an entry whose fetched record has an empty
`types` list makes the loop raise `IndexError` instead of skipping the
entry. -/
theorem c10_unguarded_types_index :
    (∀ (d : EntityRecord), d.types = [] → flattenRecord d = Except.error PyError.indexError) ∧
    (∀ (d : EntityRecord), d.types ≠ [] → ∃ row, flattenRecord d = Except.ok row) ∧
    (∀ (w : World) (p : Json) (rest : List Json) (nj : Json) (d : EntityRecord),
       Json.getField p "name" = Except.ok nj →
       fetch_pokemon_data w (pyStr nj) = Except.ok (some d) →
       d.types = [] →
       (processResults w (p :: rest)).1 = Except.error PyError.indexError) := by
  refine ⟨?_, ?_, ?_⟩
  · intro d hd
    rw [flattenRecord, hd]
  · intro d hd
    cases ht : d.types with
    | nil => exact absurd ht hd
    | cons t0 rest => exact ⟨_, by rw [flattenRecord, ht]⟩
  · intro w p rest nj d hn hf hd
    have hfl : flattenRecord d = Except.error PyError.indexError := by
      rw [flattenRecord, hd]
    rw [processResults]
    simp [hn, hf, hfl]

/-- Witness for C10: the record fetched from `wEmptyTypes` has an empty
`types` list, so flattening it raises `IndexError`, and a loop that
meets it raises rather than skipping. -/
theorem c10_unguarded_types_index_witness :
    flattenRecord etRecord = Except.error PyError.indexError ∧
    (processResults wEmptyTypes [Json.obj [("name", Json.str "x")]]).1 =
      Except.error PyError.indexError :=
  ⟨c10_unguarded_types_index.1 etRecord rfl,
   c10_unguarded_types_index.2.2 wEmptyTypes (Json.obj [("name", Json.str "x")]) []
     (Json.str "x") etRecord rfl rfl rfl⟩

/-- Counterexample for C4: with a species payload whose only entry is
English, the fetch succeeds and the description is the source's fixed
fallback literal `"Descripción no disponible."` — not the string
`"description unavailable"` stated by the claim. -/
theorem c4_counterexample :
    fetch_pokemon_data wNoEs "y" = Except.ok (some noEsRecord) ∧
    noEsRecord.description = "Descripción no disponible." ∧
    noEsRecord.description ≠ "description unavailable" :=
  ⟨rfl, rfl, by decide⟩

/-- C4 (amended): the description scans the flavor-text entries in list
order and takes the first whose language tag is the fixed locale `'es'`,
with `'\n'` and `'\f'` replaced by single spaces; when no entry matches
(each entry's tag reads successfully and is not `'es'`) it returns the
fixed, non-empty fallback string `"Descripción no disponible."`; and the
description stored in a successfully built record is exactly this
selection over the payload's entry list. -/
theorem c4_description_selection :
    (∀ (pre rest : List Json) (e : Json) (s : String) (le : Json),
       (∀ x ∈ pre, ∃ lx, entryLang x = Except.ok lx ∧ keyIs lx "es" = false) →
       entryLang e = Except.ok le → keyIs le "es" = true →
       Json.getField e "flavor_text" = Except.ok (Json.str s) →
       pickDescription (pre ++ e :: rest) =
         Except.ok (pyReplaceChar '\x0c' ' ' (pyReplaceChar '\n' ' ' s))) ∧
    (∀ (entries : List Json),
       (∀ x ∈ entries, ∃ lx, entryLang x = Except.ok lx ∧ keyIs lx "es" = false) →
       pickDescription entries = Except.ok "Descripción no disponible.") ∧
    ("Descripción no disponible." ≠ "") ∧
    (∀ (data sd : Json) (r : EntityRecord) (ents : List Json),
       buildRecord data sd = Except.ok r →
       Json.getField sd "flavor_text_entries" = Except.ok (Json.arr ents) →
       pickDescription ents = Except.ok r.description) := by
  refine ⟨?_, ?_, by decide, ?_⟩
  · intro pre
    induction pre with
    | nil =>
      intro rest e s le _ hle hes hflav
      simp [pickDescription, hle, hes, hflav]
    | cons x pre ih =>
      intro rest e s le hpre hle hes hflav
      obtain ⟨lx, hlx, hlxf⟩ := hpre x (by simp)
      rw [List.cons_append]
      simp only [pickDescription, hlx, hlxf]
      simp only [Bool.false_eq_true, if_false]
      exact ih rest e s le (fun y hy => hpre y (by simp [hy])) hle hes hflav
  · intro entries
    induction entries with
    | nil => intro _; rfl
    | cons x rest ih =>
      intro hall
      obtain ⟨lx, hlx, hlxf⟩ := hall x (by simp)
      simp only [pickDescription, hlx, hlxf]
      simp only [Bool.false_eq_true, if_false]
      exact ih (fun y hy => hall y (by simp [hy]))
  · intro data sd r ents hb hents
    have hd := (buildRecord_fields data sd r hb).1
    rw [extractDescription, hents] at hd
    exact hd

/-- Witness for C4 (amended): the pikachu species document selects the
Spanish entry past the English one; an English-only list falls back;
and the built pikachu record stores the selected description. -/
theorem c4_description_selection_witness :
    pickDescription [flavorE "en" "When it is angered,\nit discharges energy.",
                     flavorE "es" "Cuando se enfada,\ndescarga energía."] =
      Except.ok (pyReplaceChar '\x0c' ' '
        (pyReplaceChar '\n' ' ' "Cuando se enfada,\ndescarga energía.")) ∧
    pickDescription [flavorE "en" "A strange seed."] =
      Except.ok "Descripción no disponible." ∧
    pickDescription [flavorE "en" "When it is angered,\nit discharges energy.",
                     flavorE "es" "Cuando se enfada,\ndescarga energía."] =
      Except.ok pikaRecord.description :=
  ⟨c4_description_selection.1 [flavorE "en" "When it is angered,\nit discharges energy."]
      [] (flavorE "es" "Cuando se enfada,\ndescarga energía.")
      "Cuando se enfada,\ndescarga energía." (Json.str "es")
      (fun x hx => by
        rw [List.mem_singleton] at hx
        subst hx
        exact ⟨Json.str "en", rfl, rfl⟩)
      rfl rfl rfl,
   c4_description_selection.2.1 [flavorE "en" "A strange seed."]
      (fun x hx => by
        rw [List.mem_singleton] at hx
        subst hx
        exact ⟨Json.str "en", rfl, rfl⟩),
   c4_description_selection.2.2.2 pikaData pikaSpecies pikaRecord
      [flavorE "en" "When it is angered,\nit discharges energy.",
       flavorE "es" "Cuando se enfada,\ndescarga energía."] rfl rfl⟩

/-- Counterexample for C2: `fetch_pokemon_data` copies the payload's
`types` and `stats` verbatim and performs no defaulting — a payload
with empty `types` and `stats` arrays is fetched successfully into a
record whose `types` list is empty and whose stats dict has no `hp`
key. -/
theorem c2_counterexample :
    fetch_pokemon_data wEmptyTypes "x" = Except.ok (some etRecord) ∧
    etRecord.types = [] ∧
    dictHasKey etRecord.stats "hp" = false :=
  ⟨rfl, rfl, rfl⟩

/-- C2 (amended): the record mirrors the payload: when the payload's
`types` array has length 1 or 2 and its `stats` array carries all six
canonical stat names, the successfully built record's `types` list has
length 1 or 2 and its stats dict contains the six canonical keys.  (The
defaulting of missing stats to 0 happens in the loader's flattening,
`flattenRecord`, not in the fetcher.) -/
theorem c2_record_shape (data sd : Json) (r : EntityRecord) (ts ss : List Json)
    (hb : buildRecord data sd = Except.ok r)
    (ht : Json.getField data "types" = Except.ok (Json.arr ts))
    (hlen : ts.length = 1 ∨ ts.length = 2)
    (hs : Json.getField data "stats" = Except.ok (Json.arr ss))
    (hcov : canonicalStatNames.all (fun k => ss.any (fun s => statEntryNamed s k)) = true) :
    (r.types.length = 1 ∨ r.types.length = 2) ∧
    canonicalStatNames.all (fun k => dictHasKey r.stats k) = true := by
  obtain ⟨-, hT, hS⟩ := buildRecord_fields data sd r hb
  simp only [extractTypes, ht] at hT
  simp only [extractStats, hs] at hS
  constructor
  · rw [exMapM_length _ ts r.types hT]
    exact hlen
  · rw [List.all_eq_true] at hcov ⊢
    intro k hk
    have := hcov k hk
    simp only at this ⊢
    exact exMapM_stats_mem ss r.stats k hS this

/-- Witness for C2 (amended): the pikachu payload has one type and the
six canonical stats, and the built record reflects both. -/
theorem c2_record_shape_witness :
    (pikaRecord.types.length = 1 ∨ pikaRecord.types.length = 2) ∧
    canonicalStatNames.all (fun k => dictHasKey pikaRecord.stats k) = true :=
  c2_record_shape pikaData pikaSpecies pikaRecord [typeE "electric"] pikaStats
    rfl rfl (Or.inl rfl) rfl rfl

/-- The `results` document served by `wC5` and its entry list. -/
def c5Results : List Json :=
  [Json.obj [("name", Json.str "afail")], Json.obj [("name", Json.str "bok")]]

def c5Listing : Json := Json.obj [("results", Json.arr c5Results)]

/-- C5: when the listing response completes successfully and carries
exactly `n` entries, a normally returning `load_pokemon_for_analysis`
returns at most `n` rows, exactly `n` minus the number of entries whose
individual fetch failed; the rows are exactly the order-preserving
`filterMap` of the listing entries, so row order follows the order
returned by the index enumeration and failed entries leave no
placeholder row; and with `n = 0` the table is empty and no per-entity
fetch was issued. -/
theorem c5_row_counts (w : World) (n : Nat) (resp : HttpResponse) (j : Json)
    (rs : List Json) (rows : List Row) (calls : Nat)
    (hw : w (listUrl n) = Except.ok resp)
    (hok : statusBad resp.status = false)
    (hbody : resp.body = some j)
    (hres : Json.getField j "results" = Except.ok (Json.arr rs))
    (hlen : rs.length = n)
    (hload : load_pokemon_for_analysis w n = (Except.ok rows, calls)) :
    rows.length ≤ n ∧ rows.length = n - absentCount w rs ∧
    rows = rs.filterMap (entryRow w) ∧
    (n = 0 → rows = [] ∧ calls = 0) := by
  rw [load_pokemon_for_analysis, hw] at hload
  simp only [hok, Bool.false_eq_true, if_false, hbody, hres] at hload
  obtain ⟨ha, hc⟩ := processResults_length w rs rows calls hload
  refine ⟨by omega, by omega, processResults_rows w rs rows calls hload, ?_⟩
  intro h0
  have hrl : rows.length = 0 := by omega
  exact ⟨List.length_eq_zero.mp hrl, by omega⟩

/-- Witness for C5: a two-entry listing in which the first entry's
fetch fails at the transport level yields one row (1 = 2 − 1), equal to
the order-preserving `filterMap` of the two entries. -/
theorem c5_row_counts_witness :
    [bokRow].length ≤ 2 ∧
    [bokRow].length = 2 - absentCount wC5 c5Results ∧
    [bokRow] = c5Results.filterMap (entryRow wC5) ∧
    ((2 : Nat) = 0 → [bokRow] = ([] : List Row) ∧ (2 : Nat) = 0) :=
  c5_row_counts wC5 2 ⟨200, some c5Listing⟩ c5Listing c5Results [bokRow] 2
    rfl rfl rfl rfl rfl rfl
